import Mathlib

/-!
Verification of the OSM-footprint-to-3D-scene pipeline (`buildings3d.py`).

Shallow embedding of the core module `buildings3d.py`.  Pure functions
(`_footprint_height`, `_footprint_color`) are translated directly; the
external geometry libraries (shapely, trimesh, pyproj/geopandas) are
modelled as oracle records of functions (`GeoOps`, `NormOps`, `PipelineOps`)
so that the module's control flow around them is embedded exactly.
Python floats carried in OSM tags are modelled as rationals; the embedded
string-to-number parser `pyFloat` covers Python's finite decimal literals
(sign, digits, decimal point, exponent); non-finite literals such as
"inf"/"nan" are outside the model.  Python exceptions are modelled as
`Except String` / `Option` results.
-/

set_option autoImplicit false

namespace Buildings3D

/-- A tag value as it can appear in an attribute mapping of a footprint
record: a string, a (finite) number, or Python `None`. -/
inductive Val where
  | vStr (s : String)
  | vNum (q : ℚ)
  | vNone
deriving DecidableEq

/-- An attribute mapping (Python dict): association list, first binding wins. -/
abbrev Attrs := List (String × Val)

/-! ## Python `float(str)` parsing model -/

/-- Numeric value of a list of decimal digit characters. -/
def natOfDigits (cs : List Char) : ℕ :=
  cs.foldl (fun n c => 10 * n + (c.toNat - 48)) 0

/-- All characters are decimal digits. -/
def allDigits (cs : List Char) : Bool :=
  cs.all Char.isDigit

/-- Parse an optional leading sign, returning whether the literal is
negative and the rest. -/
def parseSign (cs : List Char) : Bool × List Char :=
  match cs with
  | '-' :: t => (true, t)
  | '+' :: t => (false, t)
  | _ => (false, cs)

/-- Parse a mantissa: digits with an optional decimal point, at least one
digit overall (`"12"`, `"12."`, `".5"`, `"3.25"`); returns the
concatenated digit value and the number of fraction digits. -/
def parseMant (cs : List Char) : Option (ℕ × ℕ) :=
  let ip := cs.takeWhile Char.isDigit
  let rest := cs.dropWhile Char.isDigit
  match rest with
  | [] => if ip.isEmpty then none else some (natOfDigits ip, 0)
  | '.' :: fp =>
      if allDigits fp && !(ip.isEmpty && fp.isEmpty) then
        some (natOfDigits (ip ++ fp), fp.length)
      else none
  | _ => none

/-- Parse an exponent part (after `e`/`E`): optional sign then digits. -/
def parseExp (cs : List Char) : Option ℤ :=
  let ds := match cs with
    | '-' :: t => t
    | '+' :: t => t
    | _ => cs
  if ds.isEmpty || !allDigits ds then none
  else
    match cs with
    | '-' :: _ => some (-(natOfDigits ds : ℤ))
    | _ => some (natOfDigits ds)

/-- The rational value `n / 10 ^ fracLen × 10 ^ e` of a parsed decimal
literal, assembled as one normalized fraction. -/
def ratSci (n : ℕ) (fracLen : ℕ) (e : ℤ) : ℚ :=
  match e with
  | .ofNat k => mkRat (n * 10 ^ k) (10 ^ fracLen)
  | .negSucc k => mkRat n (10 ^ fracLen * 10 ^ (k + 1))

/-- The signed value of a parsed literal. -/
def signedRat (neg : Bool) (q : ℚ) : ℚ :=
  if neg then -q else q

/-- Python whitespace as recognised by `str.strip()` / `float(str)`. -/
def isPySpace (c : Char) : Bool :=
  c == ' ' || c == '\t' || c == '\n' || c == '\r' || c == '\x0b' || c == '\x0c'

/-- Python `str.strip()` on a character list. -/
def trimChars (cs : List Char) : List Char :=
  ((cs.dropWhile isPySpace).reverse.dropWhile isPySpace).reverse

/-- Python `str.strip()`. -/
def pyStrip (s : String) : String :=
  String.mk (trimChars s.toList)

/-- Python `str.lower()` (ASCII range, which covers every palette word). -/
def lowerStr (s : String) : String :=
  String.mk (s.toList.map Char.toLower)

/-- Model of Python `float(s)` on finite decimal literals: leading and
trailing whitespace is ignored, then sign, mantissa, optional exponent.
`none` models a `ValueError`. -/
def pyFloat (s : String) : Option ℚ :=
  let cs := trimChars s.toList
  let (neg, cs1) := parseSign cs
  let mant := cs1.takeWhile (fun c => !(c == 'e' || c == 'E'))
  let rest := cs1.dropWhile (fun c => !(c == 'e' || c == 'E'))
  match parseMant mant with
  | none => none
  | some (n, fracLen) =>
      match rest with
      | [] => some (signedRat neg (ratSci n fracLen 0))
      | _ :: ecs =>
          match parseExp ecs with
          | none => none
          | some e => some (signedRat neg (ratSci n fracLen e))

/-! ## Attribute classifier (`_footprint_height`, `_footprint_color`) -/

/-- Constant `DEFAULT_LEVEL_HEIGHT_M = 3.2` — meters per building level. -/
def DEFAULT_LEVEL_HEIGHT_M : ℚ := mkRat 16 5

/-- Constant `MIN_HEIGHT_M = 3.0` — minimum extrusion to make a building visible. -/
def MIN_HEIGHT_M : ℚ := 3

/-- The presence test `attrs[key] not in (None, "", "NaN")`. -/
def presentVal (v : Val) : Bool :=
  match v with
  | .vNone => false
  | .vStr s => !(s == "" || s == "NaN")
  | .vNum _ => true

/-- Model of `str(v).replace("m", "").strip()` for a string value: drop every `m`
character, then strip surrounding whitespace. -/
def stripM (s : String) : String :=
  pyStrip (String.mk (s.toList.filter (fun c => !(c == 'm'))))

/-- Model of `float(str(v).replace("m", "").strip())` on a tag value.  A numeric
value round-trips through `str`/`float` unchanged (its decimal repr has no
`m` character); `none` models a `ValueError`. -/
def heightParse (v : Val) : Option ℚ :=
  match v with
  | .vStr s => pyFloat (stripM s)
  | .vNum q => some q
  | .vNone => none

/-- Model of `float(v)` on a tag value, as used for the levels keys. -/
def levelsParse (v : Val) : Option ℚ :=
  match v with
  | .vStr s => pyFloat s
  | .vNum q => some q
  | .vNone => none

/-- The tag loops of `_footprint_height`: take the keys in order, and
return the first value that is present, passes the presence test and
parses; a value that fails to parse falls through to the next key. -/
def firstKeyParse (attrs : Attrs) (parse : Val → Option ℚ) : List String → Option ℚ
  | [] => none
  | k :: ks =>
      match attrs.lookup k with
      | some v =>
          if presentVal v then
            match parse v with
            | some q => some q
            | none => firstKeyParse attrs parse ks
          else firstKeyParse attrs parse ks
      | none => firstKeyParse attrs parse ks

/-- Key order of the explicit-height rule: `("height", "building:height")`. -/
def heightKeys : List String := ["height", "building:height"]

/-- Key order of the levels rule: `("building:levels", "levels")`. -/
def levelKeys : List String := ["building:levels", "levels"]

/-- Embedding of `_footprint_height(attrs)` (buildings3d.py lines 45–67). -/
def footprint_height (attrs : Attrs) : ℚ :=
  match firstKeyParse attrs heightParse heightKeys with
  | some h => h
  | none =>
      match firstKeyParse attrs levelsParse levelKeys with
      | some levels => max (levels * DEFAULT_LEVEL_HEIGHT_M) MIN_HEIGHT_M
      | none => MIN_HEIGHT_M

/-- An RGBA byte quadruple. -/
abbrev RGBA := ℕ × ℕ × ℕ × ℕ

/-- Palette `COLOR_MAP` (buildings3d.py lines 21–31). -/
def COLOR_MAP : List (String × RGBA) :=
  [ ("residential", (80, 160, 255, 255)),
    ("commercial", (255, 160, 60, 255)),
    ("industrial", (180, 180, 180, 255)),
    ("retail", (255, 120, 120, 255)),
    ("office", (255, 210, 80, 255)),
    ("education", (160, 120, 255, 255)),
    ("hospital", (250, 120, 200, 255)),
    ("public", (120, 220, 180, 255)),
    ("default", (200, 200, 200, 255)) ]

/-- The synonym chain of `_footprint_color` on an already-lowercased value
that was not an exact `COLOR_MAP` key. -/
def synonymColor (s : String) : Option RGBA :=
  if s ∈ ["apartments", "house", "residential"] then COLOR_MAP.lookup "residential"
  else if s ∈ ["retail", "shop", "mall"] then COLOR_MAP.lookup "retail"
  else if s ∈ ["commercial", "hotel"] then COLOR_MAP.lookup "commercial"
  else if s ∈ ["industrial", "warehouse"] then COLOR_MAP.lookup "industrial"
  else if s ∈ ["school", "university", "college"] then COLOR_MAP.lookup "education"
  else if s ∈ ["hospital", "clinic"] then COLOR_MAP.lookup "hospital"
  else if s = "office" then COLOR_MAP.lookup "office"
  else none

/-- The body of the `_footprint_color` loop on one tag value: only strings
are considered (`isinstance(val, str)`); the value is lowercased, matched
against `COLOR_MAP` keys, then against the synonym chain. -/
def colorOfVal : Val → Option RGBA
  | .vStr s0 =>
      match COLOR_MAP.lookup (lowerStr s0) with
      | some c => some c
      | none => synonymColor (lowerStr s0)
  | _ => none

/-- Key priority order of `_footprint_color`. -/
def colorKeys : List String := ["building:use", "landuse", "building"]

/-- The key loop of `_footprint_color`, parameterised by the per-value
matcher: the first key whose value matches wins. -/
def firstColorBy (f : Val → Option RGBA) (attrs : Attrs) : List String → Option RGBA
  | [] => none
  | k :: ks =>
      match attrs.lookup k with
      | some v =>
          match f v with
          | some c => some c
          | none => firstColorBy f attrs ks
      | none => firstColorBy f attrs ks

/-- Embedding of `_footprint_color(attrs)` (buildings3d.py lines 69–90): first matching
tag in priority order, else `COLOR_MAP["default"]`. -/
def footprint_color (attrs : Attrs) : RGBA :=
  (firstColorBy colorOfVal attrs colorKeys).getD (200, 200, 200, 255)

/-! ## Geometry model (shapely / trimesh as oracles) -/

/-- A shapely polygon, abstracted to the facts the module inspects:
its validity flag, its area, and an identity tag so distinct polygons can
be told apart. -/
structure Poly where
  valid : Bool
  area : ℚ
  tag : ℕ := 0
deriving DecidableEq

/-- A shapely geometry as the module dispatches on it: a polygon, a
multi-polygon, a non-area geometry (point/line/collection), or Python
`None`. -/
inductive Geom where
  | poly (p : Poly)
  | multi (ps : List Poly)
  | nonArea
  | missing
deriving DecidableEq

/-- A mesh produced by `trimesh.creation.extrude_polygon`: the footprint
polygon it was extruded from and the extrusion height that was requested. -/
structure Mesh where
  base : Poly
  height : ℚ
deriving DecidableEq

/-- The external geometry routines used by `_polygon_to_trimesh`:
`buffer(0)` repair, outward `buffer(d)`, and whether
`trimesh.creation.extrude_polygon` succeeds on a given polygon and
height (`false` models it raising). -/
structure GeoOps where
  buffer0 : Poly → Geom
  buffer : Poly → ℚ → Poly
  extrudeOk : Poly → ℚ → Bool

/-- Threshold `1e-12`, the sliver-area cutoff. -/
def AREA_EPS : ℚ := mkRat 1 (10 ^ 12)

/-- Python `max(geoms, key=lambda g: g.area)`: the first element of
maximal area; `none` models `max` raising on an empty sequence. -/
def maxAreaPart : List Poly → Option Poly
  | [] => none
  | p :: ps => some (ps.foldl (fun best q => if best.area < q.area then q else best) p)

/-- The repair prologue of `_polygon_to_trimesh` (lines 93–99): an invalid
polygon is rebuilt with `buffer(0)`; a multi-polygon result is replaced by
its largest-area part; any other result raises. -/
def repairStage (ops : GeoOps) (poly0 : Poly) : Except String Poly :=
  if poly0.valid then .ok poly0
  else
    match ops.buffer0 poly0 with
    | .poly p => .ok p
    | .multi ps =>
        match maxAreaPart ps with
        | some p => .ok p
        | none => .error "max() arg is an empty sequence"
    | _ => .error "Invalid polygon after buffer(0)"

/-- The extrusion epilogue of `_polygon_to_trimesh` (lines 100–109): skip
tiny slivers, extrude at `max(height, MIN_HEIGHT_M)`, and on failure retry
once with the polygon buffered outward by `0.05`. -/
def extrudeStage (ops : GeoOps) (poly : Poly) (height : ℚ) : Except String Mesh :=
  if poly.area ≤ AREA_EPS then .error "Polygon too small"
  else if ops.extrudeOk poly (max height MIN_HEIGHT_M) then
    .ok ⟨poly, max height MIN_HEIGHT_M⟩
  else if ops.extrudeOk (ops.buffer poly (1 / 20)) (max height MIN_HEIGHT_M) then
    .ok ⟨ops.buffer poly (1 / 20), max height MIN_HEIGHT_M⟩
  else .error "extrude_polygon failed"

/-- Embedding of `_polygon_to_trimesh(poly, height)` (buildings3d.py lines 92–109). -/
def polygon_to_trimesh (ops : GeoOps) (poly0 : Poly) (height : ℚ) : Except String Mesh :=
  match repairStage ops poly0 with
  | .ok poly => extrudeStage ops poly height
  | .error e => .error e

/-! ## Pipeline (`fetch_buildings_gdf`, `build_glb_from_osm`) -/

/-- One row of the fetched GeoDataFrame: geometry plus attributes. -/
structure Row where
  geom : Geom
  attrs : Attrs
deriving DecidableEq

/-- The GeoDataFrame, abstracted to its CRS (possibly unset) and rows. -/
structure Frame where
  crs : Option String
  rows : List Row
deriving DecidableEq

/-- The external reprojection routines used by the coordinate normalizer:
`estimate_utm_crs` (`none` models it raising) and `to_crs` (`none` models
it raising). -/
structure NormOps where
  estimate_utm_crs : Frame → Option String
  to_crs : Frame → String → Option Frame

/-- The `if gdf.crs is None: gdf = gdf.set_crs("EPSG:4326")` step, run at
the top of the normalizer block and again inside its `except` branch. -/
def withWGS (g : Frame) : Frame :=
  if g.crs.isNone then { g with crs := some "EPSG:4326" } else g

/-- The `try` body of the normalizer block: assign WGS84 when the CRS is
unset, then reproject to the estimated UTM zone; `none` models any raise
inside the block. -/
def tryUtmCrs (ops : NormOps) (g0 : Frame) : Option Frame :=
  match ops.estimate_utm_crs (withWGS g0) with
  | some utm => ops.to_crs (withWGS g0) utm
  | none => none

/-- The coordinate-normalizer block of `fetch_buildings_gdf` (lines
120–129): try the UTM reprojection, and on any failure in that block fall
back to Web Mercator (re-running the WGS84 assignment, a no-op there).
`none` models the fallback reprojection itself raising. -/
def normalizeFrame (ops : NormOps) (g0 : Frame) : Option Frame :=
  match tryUtmCrs ops g0 with
  | some g2 => some g2
  | none => ops.to_crs (withWGS (withWGS g0)) "EPSG:3857"

/-- Configuration dataclass `OSM3DConfig` (buildings3d.py lines 33–39). -/
structure OSM3DConfig where
  lat : ℚ
  lon : ℚ
  radius_m : ℚ := 500
  simplify : Bool := true
  merge_multipolygons : Bool := true
deriving DecidableEq

/-- Construction of `OSM3DConfig`: the dataclass constructor only stores
the fields and performs no validation, so it cannot fail; the `Except`
codomain records the absence of any error path. -/
def mk_OSM3DConfig (lat lon radius_m : ℚ) (simplify merge_multipolygons : Bool) :
    Except String OSM3DConfig :=
  .ok ⟨lat, lon, radius_m, simplify, merge_multipolygons⟩

/-- All external effects of the pipeline: the OSM fetch (`none` models the
download raising), the reprojection routines, the shapely/trimesh
routines, and per-geometry `simplify(0.05, preserve_topology=True)`. -/
structure PipelineOps where
  fetch : OSM3DConfig → Option Frame
  norm : NormOps
  geo : GeoOps
  simplifyG : Geom → Geom

/-- The geometry-type filter `geom_type.isin(["Polygon", "MultiPolygon"])`. -/
def isAreaGeom : Geom → Bool
  | .poly _ => true
  | .multi _ => true
  | _ => false

/-- Model of `explode(ignore_index=True)` on one row: a multi-polygon becomes one
row per part, attributes duplicated; other rows are kept as they are. -/
def explodeRow (r : Row) : List Row :=
  match r.geom with
  | .multi ps => ps.map (fun p => ⟨.poly p, r.attrs⟩)
  | g => [⟨g, r.attrs⟩]

/-- Embedding of `fetch_buildings_gdf(cfg)` (buildings3d.py lines 111–141): fetch,
normalize the CRS, keep only area geometries, explode multi-polygons when
configured, simplify when configured. -/
def fetch_buildings_gdf (ops : PipelineOps) (cfg : OSM3DConfig) : Except String Frame :=
  match ops.fetch cfg with
  | none => .error "No se pudo descargar datos OSM"
  | some gdf0 =>
      match normalizeFrame ops.norm gdf0 with
      | none => .error "reprojection raised"
      | some gdf1 =>
          let rows1 := gdf1.rows.filter (fun r => isAreaGeom r.geom)
          if rows1.isEmpty then .ok { gdf1 with rows := [] }
          else
            let rows2 := if cfg.merge_multipolygons then rows1.flatMap explodeRow else rows1
            let rows3 :=
              if cfg.simplify then rows2.map (fun r => ⟨ops.simplifyG r.geom, r.attrs⟩)
              else rows2
            .ok { gdf1 with rows := rows3 }

/-- The polygon list dispatch of the scene loop (lines 159–164): a
polygon row contributes itself, a multi-polygon its parts, anything else
(including `None` geometry, line 152) is skipped. -/
def rowPolys : Geom → Option (List Poly)
  | .poly p => some [p]
  | .multi ps => some ps
  | _ => none

/-- One iteration of the scene loop (lines 150–175): classify the row,
extrude each of its polygons, keep the meshes that succeed, tag each with
the row's color; a failing polygon is skipped (`except: continue`). -/
def addRowMeshes (ops : GeoOps) (r : Row) : List (Mesh × RGBA) :=
  match rowPolys r.geom with
  | none => []
  | some polys =>
      polys.filterMap (fun poly =>
        match polygon_to_trimesh ops poly (max (footprint_height r.attrs) MIN_HEIGHT_M) with
        | .ok m => some (m, footprint_color r.attrs)
        | .error _ => none)

/-- The assembled scene: all meshes added across all rows, in order. -/
def buildScene (ops : GeoOps) (rows : List Row) : List (Mesh × RGBA) :=
  rows.flatMap (addRowMeshes ops)

/-- Embedding of `build_glb_from_osm` after the fetch (buildings3d.py lines 143–181):
raise when the frame is empty, assemble the scene, raise when no mesh was
added, otherwise export and return the output path. -/
def build_glb_core (ops : GeoOps) (rows : List Row) (out_path : String) :
    Except String String :=
  if rows.isEmpty then
    .error "No se encontraron edificios en el área seleccionada. Intenta aumentar el radio."
  else if (buildScene ops rows).isEmpty then .error "No se pudo crear ninguna malla."
  else .ok out_path

/-- Embedding of `build_glb_from_osm(cfg, out_path)` (buildings3d.py lines 143–181). -/
def build_glb_from_osm (ops : PipelineOps) (cfg : OSM3DConfig) (out_path : String) :
    Except String String :=
  match fetch_buildings_gdf ops cfg with
  | .ok gdf => build_glb_core ops.geo gdf.rows out_path
  | .error e => .error e

/-! ## Claim-side definitions -/

/-- The height rule as the specification phrases it: first `height` /
`building:height` value that parses is returned directly; otherwise the
first `building:levels` / `levels` value that parses gives
`max(levels * 3.2, 3.0)`; otherwise `3.0`. -/
def footprint_height_spec (attrs : Attrs) : ℚ :=
  match firstKeyParse attrs heightParse heightKeys with
  | some h => h
  | none =>
      match firstKeyParse attrs levelsParse levelKeys with
      | some levels => max (levels * (16 / 5)) 3
      | none => 3

/-- The color matcher as the specification phrases it: exact match against
the palette categories first, then the documented synonym table
(apartments/house → residential; retail/shop/mall → retail;
commercial/hotel → commercial; industrial/warehouse → industrial;
school/university/college → education; hospital/clinic → hospital;
office → office). -/
def specMatchStr (s : String) : Option RGBA :=
  match COLOR_MAP.lookup s with
  | some c => some c
  | none =>
      if s ∈ ["apartments", "house"] then COLOR_MAP.lookup "residential"
      else if s ∈ ["retail", "shop", "mall"] then COLOR_MAP.lookup "retail"
      else if s ∈ ["commercial", "hotel"] then COLOR_MAP.lookup "commercial"
      else if s ∈ ["industrial", "warehouse"] then COLOR_MAP.lookup "industrial"
      else if s ∈ ["school", "university", "college"] then COLOR_MAP.lookup "education"
      else if s ∈ ["hospital", "clinic"] then COLOR_MAP.lookup "hospital"
      else if s = "office" then COLOR_MAP.lookup "office"
      else none

/-- Claim-side per-value matcher: non-string values never match;
comparison is case-insensitive (lowercasing). -/
def specColorVal : Val → Option RGBA
  | .vStr s0 => specMatchStr (lowerStr s0)
  | _ => none

/-- Claim-side color derivation: tags in priority order `building:use`,
`landuse`, `building`; fixed neutral gray default when no tag matches. -/
def footprint_color_spec (attrs : Attrs) : RGBA :=
  (firstColorBy specColorVal attrs colorKeys).getD (200, 200, 200, 255)

/-! ## Concrete fixtures for witnesses and counterexamples -/

/-- A valid polygon of unit area. -/
def okPoly : Poly := ⟨true, 1, 0⟩

/-- A degenerate polygon: valid but of zero area (e.g. a duplicated-point
triangle after repair). -/
def tinyPoly : Poly := ⟨true, 0, 1⟩

/-- An invalid (self-intersecting) polygon. -/
def badPoly : Poly := ⟨false, 1, 2⟩

/-- Two parts of a repaired multi-polygon, the second one larger. -/
def partA : Poly := ⟨true, 1, 10⟩

/-- The larger part of the repaired multi-polygon. -/
def partB : Poly := ⟨true, 3, 11⟩

/-- Geometry oracle on which every external routine succeeds. -/
def okGeo : GeoOps :=
  ⟨fun p => .poly { p with valid := true }, fun p _ => p, fun _ _ => true⟩

/-- Geometry oracle whose `buffer(0)` yields a multi-polygon. -/
def multiGeo : GeoOps :=
  ⟨fun _ => .multi [partA, partB], fun p _ => p, fun _ _ => true⟩

/-- A fetched row holding a single valid polygon and no tags. -/
def okRow : Row := ⟨.poly okPoly, []⟩

/-- A fetched row holding a single degenerate polygon. -/
def tinyRow : Row := ⟨.poly tinyPoly, []⟩

/-- Reprojection oracle whose UTM estimation always raises but whose
`to_crs` always succeeds. -/
def mercNorm : NormOps :=
  ⟨fun _ => none, fun g c => some { g with crs := some c }⟩

/-- Reprojection oracle where estimation and reprojection both succeed. -/
def utmNorm : NormOps :=
  ⟨fun _ => some "EPSG:32614", fun g c => some { g with crs := some c }⟩

/-- An invalid query configuration: out-of-range coordinates, negative
radius. -/
def badCfg : OSM3DConfig := ⟨999, 999, -5, true, true⟩

/-- Pipeline oracle whose fetch returns one valid building row for any
configuration. -/
def okPipeline : PipelineOps :=
  ⟨fun _ => some ⟨some "EPSG:4326", [okRow]⟩, utmNorm, okGeo, id⟩

/-- Pipeline oracle whose fetch raises for any configuration. -/
def noFetch : PipelineOps := ⟨fun _ => none, mercNorm, okGeo, id⟩

/-! ## Helper lemmas -/

theorem lookup_mem_values {l : List (String × RGBA)} {k : String} {c : RGBA}
    (h : l.lookup k = some c) : c ∈ l.map Prod.snd := by
  induction l with
  | nil => simp [List.lookup] at h
  | cons p t ih =>
      obtain ⟨a, b⟩ := p
      rw [List.lookup] at h
      split at h
      · cases h
        simp
      · simp [ih h]

theorem synonymColor_mem {s : String} {c : RGBA} (h : synonymColor s = some c) :
    c ∈ COLOR_MAP.map Prod.snd := by
  unfold synonymColor at h
  split_ifs at h <;> exact lookup_mem_values h

theorem colorOfVal_mem {v : Val} {c : RGBA} (h : colorOfVal v = some c) :
    c ∈ COLOR_MAP.map Prod.snd := by
  cases v with
  | vStr s0 =>
      rw [colorOfVal] at h
      split at h
      · cases h
        exact lookup_mem_values (by assumption)
      · exact synonymColor_mem h
  | vNum q => exact Option.noConfusion h
  | vNone => exact Option.noConfusion h

theorem firstColorBy_some {f : Val → Option RGBA} {attrs : Attrs} {ks : List String}
    {c : RGBA} (h : firstColorBy f attrs ks = some c) : ∃ v, f v = some c := by
  induction ks with
  | nil => exact Option.noConfusion h
  | cons k ks ih =>
      rw [firstColorBy] at h
      split at h
      · split at h
        · cases h
          exact ⟨_, by assumption⟩
        · exact ih h
      · exact ih h

theorem firstColorBy_congr {f g : Val → Option RGBA} (hfg : ∀ v, f v = g v)
    (attrs : Attrs) (ks : List String) :
    firstColorBy f attrs ks = firstColorBy g attrs ks := by
  induction ks with
  | nil => rfl
  | cons k ks ih =>
      rw [firstColorBy, firstColorBy]
      split
      · rw [hfg]
        split
        · rfl
        · exact ih
      · exact ih

theorem extrudeStage_ok_height {ops : GeoOps} {p : Poly} {h : ℚ} {m : Mesh}
    (hm : extrudeStage ops p h = .ok m) : m.height = max h MIN_HEIGHT_M := by
  unfold extrudeStage at hm
  split_ifs at hm <;> (cases hm; rfl)

theorem polygon_to_trimesh_ok_height {ops : GeoOps} {p : Poly} {h : ℚ} {m : Mesh}
    (hm : polygon_to_trimesh ops p h = .ok m) : m.height = max h MIN_HEIGHT_M := by
  unfold polygon_to_trimesh at hm
  split at hm
  · exact extrudeStage_ok_height hm
  · exact Except.noConfusion hm

/-! ## Helper lemmas for the extruder and the pipeline -/

theorem repairStage_valid {ops : GeoOps} {p : Poly} (hv : p.valid = true) :
    repairStage ops p = .ok p := by
  unfold repairStage
  rw [hv]
  rfl

theorem polygon_to_trimesh_of_repair {ops : GeoOps} {p q : Poly} {h : ℚ}
    (hrep : repairStage ops p = .ok q) :
    polygon_to_trimesh ops p h = extrudeStage ops q h := by
  unfold polygon_to_trimesh
  rw [hrep]

theorem polygon_to_trimesh_of_repair_err {ops : GeoOps} {p : Poly} {e : String} {h : ℚ}
    (hrep : repairStage ops p = .error e) :
    polygon_to_trimesh ops p h = .error e := by
  unfold polygon_to_trimesh
  rw [hrep]

theorem foldl_area_le (t : List Poly) : ∀ p : Poly,
    p.area ≤ (t.foldl (fun best q => if best.area < q.area then q else best) p).area
    ∧ ∀ r ∈ t,
        r.area ≤ (t.foldl (fun best q => if best.area < q.area then q else best) p).area := by
  induction t with
  | nil =>
      intro p
      exact ⟨le_refl _, by simp⟩
  | cons a t ih =>
      intro p
      simp only [List.foldl_cons]
      by_cases hc : p.area < a.area
      · rw [if_pos hc]
        refine ⟨le_trans (le_of_lt hc) (ih a).1, ?_⟩
        intro r hr
        rcases List.mem_cons.mp hr with h1 | h2
        · rw [h1]
          exact (ih a).1
        · exact (ih a).2 r h2
      · rw [if_neg hc]
        refine ⟨(ih p).1, ?_⟩
        intro r hr
        rcases List.mem_cons.mp hr with h1 | h2
        · rw [h1]
          exact le_trans (not_lt.mp hc) (ih p).1
        · exact (ih p).2 r h2

theorem maxAreaPart_is_max {ps : List Poly} {q : Poly} (h : maxAreaPart ps = some q) :
    ∀ r ∈ ps, r.area ≤ q.area := by
  cases ps with
  | nil => exact Option.noConfusion h
  | cons p t =>
      rw [maxAreaPart] at h
      cases h
      intro r hr
      rcases List.mem_cons.mp hr with h1 | h2
      · rw [h1]
        exact (foldl_area_le t p).1
      · exact (foldl_area_le t p).2 r h2

theorem addRowMeshes_ok_length {ops : GeoOps} {r : Row} {p : Poly}
    (hg : r.geom = .poly p)
    (hv : p.valid = true) (ha : AREA_EPS < p.area)
    (hext : ∀ (q : Poly) (h : ℚ), q.valid = true → ops.extrudeOk q h = true) :
    (addRowMeshes ops r).length = 1 := by
  unfold addRowMeshes
  rw [hg]
  simp only [rowPolys]
  have hok : polygon_to_trimesh ops p (max (footprint_height r.attrs) MIN_HEIGHT_M)
      = .ok ⟨p, max (max (footprint_height r.attrs) MIN_HEIGHT_M) MIN_HEIGHT_M⟩ := by
    rw [polygon_to_trimesh_of_repair (repairStage_valid hv)]
    unfold extrudeStage
    rw [if_neg (not_le.mpr ha), if_pos (hext p _ hv)]
  simp [List.filterMap_cons, hok]

theorem buildScene_length (ops : GeoOps)
    (hext : ∀ (q : Poly) (h : ℚ), q.valid = true → ops.extrudeOk q h = true) :
    ∀ rows : List Row,
      (∀ r ∈ rows, ∃ p : Poly, r.geom = .poly p ∧ p.valid = true ∧ AREA_EPS < p.area) →
      (buildScene ops rows).length = rows.length := by
  intro rows
  induction rows with
  | nil => intro _; rfl
  | cons r rest ih =>
      intro hrows
      obtain ⟨p, hg, hv, ha⟩ := hrows r (List.mem_cons_self r rest)
      unfold buildScene
      rw [List.flatMap_cons, List.length_append]
      have h1 := addRowMeshes_ok_length hg hv ha hext
      have h2 := ih (fun s hs => hrows s (List.mem_cons_of_mem _ hs))
      unfold buildScene at h2
      rw [h1, h2, List.length_cons, Nat.add_comm]

theorem colorOfVal_eq_spec (v : Val) : colorOfVal v = specColorVal v := by
  cases v with
  | vNum q => rfl
  | vNone => rfl
  | vStr s0 =>
      rw [colorOfVal, specColorVal, specMatchStr]
      split
      · rfl
      · next hl =>
          have hr : lowerStr s0 ≠ "residential" := by
            intro hs
            rw [hs] at hl
            exact Option.noConfusion hl
          rw [synonymColor]
          simp only [List.mem_cons, List.mem_singleton, List.not_mem_nil, or_false]
          simp [hr]

/-! ## Claims about the attribute classifier -/

/-- C1: the derived extrusion height follows the first-match rule order —
an explicit `height`/`building:height` value that parses (after stripping
the unit marker) is returned directly, otherwise a parsing
`building:levels`/`levels` value gives `max(levels * 3.2, 3.0)`, otherwise
`3.0`; unparsable values fall through.  `{height: "12m"}` gives `12.0`,
`{building:levels: "4"}` gives `12.8`, `{}` gives `3.0`. -/
theorem height_first_match_rule :
    (∀ attrs : Attrs, footprint_height attrs = footprint_height_spec attrs)
    ∧ footprint_height [("height", Val.vStr "12m")] = 12
    ∧ footprint_height [("building:levels", Val.vStr "4")] = 64 / 5
    ∧ footprint_height [] = 3
    ∧ footprint_height [("height", Val.vStr "abc"), ("building:levels", Val.vStr "4")]
        = 64 / 5 := by
  have hd : DEFAULT_LEVEL_HEIGHT_M = 16 / 5 := by
    rw [DEFAULT_LEVEL_HEIGHT_M, Rat.mkRat_eq_divInt, Rat.divInt_eq_div]
    norm_num
  refine ⟨?_, ?_, ?_, rfl, ?_⟩
  · intro attrs
    unfold footprint_height footprint_height_spec
    simp only [hd]
    rfl
  · have hp : firstKeyParse [("height", Val.vStr "12m")] heightParse heightKeys
        = some 12 := by decide
    unfold footprint_height
    rw [hp]
  · have hp1 : firstKeyParse [("building:levels", Val.vStr "4")] heightParse heightKeys
        = none := by decide
    have hp2 : firstKeyParse [("building:levels", Val.vStr "4")] levelsParse levelKeys
        = some 4 := by decide
    unfold footprint_height
    simp only [hp1, hp2, hd, MIN_HEIGHT_M]
    rw [max_eq_left (by norm_num : (3 : ℚ) ≤ 4 * (16 / 5))]
    norm_num
  · have hp1 : firstKeyParse [("height", Val.vStr "abc"), ("building:levels", Val.vStr "4")]
        heightParse heightKeys = none := by decide
    have hp2 : firstKeyParse [("height", Val.vStr "abc"), ("building:levels", Val.vStr "4")]
        levelsParse levelKeys = some 4 := by decide
    unfold footprint_height
    simp only [hp1, hp2, hd, MIN_HEIGHT_M]
    rw [max_eq_left (by norm_num : (3 : ℚ) ≤ 4 * (16 / 5))]
    norm_num

/-- C2 counterexample: an explicit `height` tag that parses below the
minimum is returned directly, so the classification height can be under
`3.0` — `{height: "1"}` yields `1.0`. -/
theorem height_min_counterexample :
    footprint_height [("height", Val.vStr "1")] < 3 := by
  have hp : firstKeyParse [("height", Val.vStr "1")] heightParse heightKeys
      = some 1 := by decide
  unfold footprint_height
  simp only [hp]
  norm_num

/-- C2 (amended): the classifier is total and its height is at least `3.0`
whenever no explicit `height`/`building:height` tag parses; a parsing
explicit tag is returned as is (even below `3.0`); every mesh actually
placed in the scene is extruded at a height of at least `3.0`. -/
theorem height_min_amended :
    (∀ attrs : Attrs, firstKeyParse attrs heightParse heightKeys = none →
        3 ≤ footprint_height attrs)
    ∧ (∀ (attrs : Attrs) (h : ℚ), firstKeyParse attrs heightParse heightKeys = some h →
        footprint_height attrs = h)
    ∧ (∀ (ops : GeoOps) (rows : List Row) (m : Mesh) (c : RGBA),
        (m, c) ∈ buildScene ops rows → 3 ≤ m.height) := by
  refine ⟨?_, ?_, ?_⟩
  · intro attrs hnone
    unfold footprint_height
    rw [hnone]
    cases firstKeyParse attrs levelsParse levelKeys with
    | some levels => exact le_max_right _ _
    | none => exact le_refl _
  · intro attrs h hsome
    unfold footprint_height
    rw [hsome]
  · intro ops rows m c hmem
    obtain ⟨r, _, hr⟩ := List.mem_flatMap.mp hmem
    unfold addRowMeshes at hr
    split at hr
    · simp at hr
    · simp only [List.mem_filterMap] at hr
      obtain ⟨poly, _, hpoly⟩ := hr
      split at hpoly
      · next m0 hok =>
          simp only [Option.some_inj, Prod.mk.injEq] at hpoly
          obtain ⟨hm0, _⟩ := hpoly
          subst hm0
          rw [polygon_to_trimesh_ok_height hok]
          exact le_trans (by norm_num [MIN_HEIGHT_M]) (le_max_right _ _)
      · exact Option.noConfusion hpoly

/-- C2 witness: the empty mapping has no parsing explicit tag, and its
height is at least the minimum. -/
theorem height_min_amended_witness : 3 ≤ footprint_height [] :=
  height_min_amended.1 [] rfl

/-- C4: the derived color checks tags in priority order `building:use`,
`landuse`, `building`, matching case-insensitively against the palette
categories and the synonym table, with the fixed gray default;
`{building:use: "Residential"}` gives the residential RGBA,
`{building: "warehouse"}` the industrial RGBA, `{}` the default gray. -/
theorem color_priority_synonyms :
    (∀ attrs : Attrs, footprint_color attrs = footprint_color_spec attrs)
    ∧ footprint_color [("building:use", Val.vStr "Residential")] = (80, 160, 255, 255)
    ∧ footprint_color [("building", Val.vStr "warehouse")] = (180, 180, 180, 255)
    ∧ footprint_color [] = (200, 200, 200, 255) := by
  refine ⟨?_, by exact Eq.refl _, by exact Eq.refl _, by exact Eq.refl _⟩
  intro attrs
  unfold footprint_color footprint_color_spec
  rw [firstColorBy_congr colorOfVal_eq_spec]

/-- C10: the color classifier is total — for every attribute mapping,
including non-string tag values (skipped, never coerced), it returns one
of the nine fixed palette RGBA quadruples, each with alpha `255`. -/
theorem color_total_palette :
    (∀ attrs : Attrs, footprint_color attrs ∈ COLOR_MAP.map Prod.snd
        ∧ (footprint_color attrs).2.2.2 = 255)
    ∧ (∀ q : ℚ, colorOfVal (Val.vNum q) = none)
    ∧ colorOfVal Val.vNone = none := by
  have halpha : ∀ x ∈ COLOR_MAP.map Prod.snd, x.2.2.2 = 255 := by decide
  refine ⟨?_, fun q => rfl, rfl⟩
  intro attrs
  have hmem : footprint_color attrs ∈ COLOR_MAP.map Prod.snd := by
    unfold footprint_color
    cases hf : firstColorBy colorOfVal attrs colorKeys with
    | none => decide
    | some c =>
        obtain ⟨v, hv⟩ := firstColorBy_some hf
        exact colorOfVal_mem hv
  exact ⟨hmem, halpha _ hmem⟩

/-! ## Claims about the extruder and the pipeline -/

/-- C5: on a sanitized polygon (valid, above the sliver threshold) the
extruder extrudes at `max(height, 3.0)`; if the primary extrusion fails it
retries exactly once with the polygon buffered outward by `0.05`, and only
then gives up with an error for that single polygon. -/
theorem extruder_retry_once :
    ∀ (ops : GeoOps) (p : Poly) (h : ℚ), p.valid = true → AREA_EPS < p.area →
      polygon_to_trimesh ops p h =
        (if ops.extrudeOk p (max h MIN_HEIGHT_M) then
          .ok ⟨p, max h MIN_HEIGHT_M⟩
        else if ops.extrudeOk (ops.buffer p (1 / 20)) (max h MIN_HEIGHT_M) then
          .ok ⟨ops.buffer p (1 / 20), max h MIN_HEIGHT_M⟩
        else .error "extrude_polygon failed") := by
  intro ops p h hv ha
  rw [polygon_to_trimesh_of_repair (repairStage_valid hv)]
  unfold extrudeStage
  rw [if_neg (not_le.mpr ha)]

/-- C5 witness: on an always-succeeding extruder, a concrete sanitized
polygon is extruded at `max(5, 3) = 5` on the first attempt. -/
theorem extruder_retry_once_witness :
    polygon_to_trimesh okGeo okPoly 5 = .ok ⟨okPoly, max 5 MIN_HEIGHT_M⟩ := by
  rw [extruder_retry_once okGeo okPoly 5 rfl (by decide)]
  rfl

/-- C6: at extrusion time an invalid polygon is repaired with a
zero-distance buffer; a multi-polygon repair keeps only the largest-area
part; a repair that yields no polygon, or a polygon at or below the
`1e-12` area threshold, is rejected with an error; and such a rejection
only excludes that polygon — the remaining rows are still processed. -/
theorem degenerate_repair_skip :
    ∀ (ops : GeoOps) (p : Poly) (h : ℚ),
      (p.valid = false → ∀ q : Poly, ops.buffer0 p = .poly q →
          polygon_to_trimesh ops p h = extrudeStage ops q h)
      ∧ (p.valid = false → ∀ (ps : List Poly) (q : Poly),
          ops.buffer0 p = .multi ps → maxAreaPart ps = some q →
          polygon_to_trimesh ops p h = extrudeStage ops q h
            ∧ ∀ r ∈ ps, r.area ≤ q.area)
      ∧ (p.valid = false → ops.buffer0 p = .nonArea →
          polygon_to_trimesh ops p h = .error "Invalid polygon after buffer(0)")
      ∧ (∀ q : Poly, repairStage ops p = .ok q → q.area ≤ AREA_EPS →
          polygon_to_trimesh ops p h = .error "Polygon too small")
      ∧ (∀ (attrs : Attrs) (rest : List Row) (e : String),
          polygon_to_trimesh ops p (max (footprint_height attrs) MIN_HEIGHT_M)
              = .error e →
          buildScene ops (⟨.poly p, attrs⟩ :: rest) = buildScene ops rest) := by
  intro ops p h
  refine ⟨?_, ?_, ?_, ?_, ?_⟩
  · intro hv q hb
    have hrep : repairStage ops p = .ok q := by
      unfold repairStage
      rw [hv, hb]
      rfl
    exact polygon_to_trimesh_of_repair hrep
  · intro hv ps q hb hmax
    have hrep : repairStage ops p = .ok q := by
      unfold repairStage
      rw [hv, hb]
      simp only [Bool.false_eq_true, if_false, hmax]
    exact ⟨polygon_to_trimesh_of_repair hrep, maxAreaPart_is_max hmax⟩
  · intro hv hb
    have hrep : repairStage ops p = .error "Invalid polygon after buffer(0)" := by
      unfold repairStage
      rw [hv, hb]
      rfl
    exact polygon_to_trimesh_of_repair_err hrep
  · intro q hrep hq
    rw [polygon_to_trimesh_of_repair hrep]
    unfold extrudeStage
    rw [if_pos hq]
  · intro attrs rest e herr
    unfold buildScene
    rw [List.flatMap_cons]
    have hempty : addRowMeshes ops ⟨.poly p, attrs⟩ = [] := by
      unfold addRowMeshes
      simp only [rowPolys]
      simp [List.filterMap_cons, herr]
    rw [hempty, List.nil_append]

/-- C6 witness: an invalid polygon whose repair yields a two-part
multi-polygon continues with the larger part, and a degenerate polygon is
skipped while the remaining row still produces its mesh. -/
theorem degenerate_repair_skip_witness :
    polygon_to_trimesh multiGeo badPoly 5 = extrudeStage multiGeo partB 5
    ∧ partA.area ≤ partB.area
    ∧ buildScene okGeo [tinyRow, okRow] = buildScene okGeo [okRow] := by
  have h1 := (degenerate_repair_skip multiGeo badPoly 5).2.1 rfl [partA, partB] partB
    rfl (by decide)
  have h2 := ((degenerate_repair_skip okGeo tinyPoly
      (max (footprint_height ([] : Attrs)) MIN_HEIGHT_M)).2.2.2.2 [] [okRow]
    "Polygon too small" (by exact Eq.refl _))
  exact ⟨h1.1, h1.2 partA (by simp), h2⟩

/-- C7 counterexample: when every input polygon is degenerate the pipeline
does fail, but the error carries the generic could-not-create-mesh message,
not the widen-the-radius suggestion (that text accompanies only the
empty-fetch failure). -/
theorem empty_result_message_counterexample :
    build_glb_core okGeo [tinyRow] "out.glb" = .error "No se pudo crear ninguna malla."
    ∧ "No se pudo crear ninguna malla."
        ≠ "No se encontraron edificios en el área seleccionada. Intenta aumentar el radio." := by
  constructor
  · exact Eq.refl _
  · decide

/-- C7 (amended): the pipeline core fails exactly when zero meshes were
assembled — with the widen-the-radius message when the sanitized frame has
no rows at all, and with the generic could-not-create-mesh message when
rows existed but every polygon failed; otherwise it exports and returns the
output path. -/
theorem empty_result_amended :
    ∀ (ops : GeoOps) (rows : List Row) (out_path : String),
      (rows = [] → build_glb_core ops rows out_path =
        .error "No se encontraron edificios en el área seleccionada. Intenta aumentar el radio.")
      ∧ (rows ≠ [] → buildScene ops rows = [] →
        build_glb_core ops rows out_path = .error "No se pudo crear ninguna malla.")
      ∧ (buildScene ops rows ≠ [] →
        build_glb_core ops rows out_path = .ok out_path) := by
  intro ops rows out_path
  refine ⟨?_, ?_, ?_⟩
  · intro h
    rw [h]
    rfl
  · intro h1 h2
    unfold build_glb_core
    rw [if_neg (by simp [List.isEmpty_iff, h1]), if_pos (by simp [List.isEmpty_iff, h2])]
  · intro h2
    have h1 : rows ≠ [] := by
      intro hc
      apply h2
      rw [hc]
      rfl
    unfold build_glb_core
    rw [if_neg (by simp [List.isEmpty_iff, h1]), if_neg (by simp [List.isEmpty_iff, h2])]

/-- C7 witness: with one valid row the pipeline core succeeds and returns
the output path. -/
theorem empty_result_amended_witness :
    build_glb_core okGeo [okRow] "out.glb" = .ok "out.glb" := by
  refine (empty_result_amended okGeo [okRow] "out.glb").2.2 ?_
  intro hc
  have hlen : (buildScene okGeo [okRow]).length = 1 := by exact Eq.refl _
  rw [hc] at hlen
  exact absurd hlen (by decide)

/-- C8: for a footprint set of N simple non-degenerate polygon rows with
no multi-part geometries, on an extruder that succeeds on valid polygons,
the assembled scene contains exactly N meshes. -/
theorem scene_count_exact :
    ∀ (ops : GeoOps) (rows : List Row),
      (∀ (q : Poly) (h : ℚ), q.valid = true → ops.extrudeOk q h = true) →
      (∀ r ∈ rows, ∃ p : Poly, r.geom = .poly p ∧ p.valid = true ∧ AREA_EPS < p.area) →
      (buildScene ops rows).length = rows.length := by
  intro ops rows hext hrows
  exact buildScene_length ops hext rows hrows

/-- C8 witness: one valid row yields a scene of exactly one mesh. -/
theorem scene_count_exact_witness :
    (buildScene okGeo [okRow]).length = [okRow].length := by
  refine scene_count_exact okGeo [okRow] (fun _ _ _ => rfl) ?_
  intro r hr
  rw [List.mem_singleton.mp hr]
  exact ⟨okPoly, rfl, rfl, by decide⟩

/-- C9: provided the Web-Mercator reprojection itself cannot fail (the
pyproj contract), the coordinate normalizer never fails: an unset CRS is
assigned WGS84, the estimated UTM zone is tried, and on failure to
estimate it the frame is reprojected to Web Mercator instead of raising. -/
theorem normalizer_never_fails :
    ∀ (ops : NormOps) (g0 : Frame),
      (∀ g : Frame, (ops.to_crs g "EPSG:3857").isSome = true) →
      (normalizeFrame ops g0).isSome = true
      ∧ (g0.crs = none → (withWGS g0).crs = some "EPSG:4326")
      ∧ (ops.estimate_utm_crs (withWGS g0) = none →
          normalizeFrame ops g0 = ops.to_crs (withWGS (withWGS g0)) "EPSG:3857")
      ∧ (∀ (utm : String) (g2 : Frame),
          ops.estimate_utm_crs (withWGS g0) = some utm →
          ops.to_crs (withWGS g0) utm = some g2 →
          normalizeFrame ops g0 = some g2) := by
  intro ops g0 hM
  refine ⟨?_, ?_, ?_, ?_⟩
  · unfold normalizeFrame
    cases htry : tryUtmCrs ops g0 with
    | none => exact hM _
    | some g2 => rfl
  · intro h0
    unfold withWGS
    rw [h0]
    rfl
  · intro hest
    have htry : tryUtmCrs ops g0 = none := by
      unfold tryUtmCrs
      rw [hest]
    unfold normalizeFrame
    rw [htry]
  · intro utm g2 hest hcrs
    have htry : tryUtmCrs ops g0 = some g2 := by
      unfold tryUtmCrs
      rw [hest]
      exact hcrs
    unfold normalizeFrame
    rw [htry]

/-- C9 witness: on an oracle whose UTM estimation always raises and whose
reprojection always succeeds, a frame with unset CRS is normalized without
failing. -/
theorem normalizer_never_fails_witness :
    (normalizeFrame mercNorm ⟨none, []⟩).isSome = true :=
  (normalizer_never_fails mercNorm ⟨none, []⟩ (fun _ => rfl)).1

/-- C3 counterexample: a configuration with out-of-range coordinates and a
negative radius is constructed without any validation error, and running
the pipeline on it (with a fetch oracle that returns one building) succeeds
— no `InvalidConfig` failure exists in the code. -/
theorem invalid_config_counterexample :
    mk_OSM3DConfig 999 999 (-5) true true = .ok badCfg
    ∧ build_glb_from_osm okPipeline badCfg "out.glb" = .ok "out.glb" := by
  constructor
  · rfl
  · exact Eq.refl _

/-- C3 (amended): the configuration constructor performs no validation and
accepts every latitude/longitude/radius; no `InvalidConfig` error exists,
and the only failure of the fetch stage is the generic download error when
the external query raises. -/
theorem invalid_config_amended :
    (∀ (lat lon radius_m : ℚ) (s m : Bool),
        mk_OSM3DConfig lat lon radius_m s m = .ok ⟨lat, lon, radius_m, s, m⟩)
    ∧ (∀ (ops : PipelineOps) (cfg : OSM3DConfig) (out_path : String),
        ops.fetch cfg = none →
        build_glb_from_osm ops cfg out_path = .error "No se pudo descargar datos OSM") := by
  refine ⟨fun _ _ _ _ _ => rfl, ?_⟩
  intro ops cfg out_path hf
  unfold build_glb_from_osm fetch_buildings_gdf
  rw [hf]

/-- C3 witness: the invalid configuration is accepted by the constructor,
and with a fetch oracle that raises, the pipeline fails with the generic
download error. -/
theorem invalid_config_amended_witness :
    build_glb_from_osm noFetch badCfg "out.glb"
      = .error "No se pudo descargar datos OSM" :=
  invalid_config_amended.2 noFetch badCfg "out.glb" rfl

end Buildings3D
